import Mathlib

/-
Shallow embedding of fs/sync.c (HTC M7 kernel tree, Linux 3.4 era) and
verification of the claims the specification makes about it.

Modelling conventions:
  - `unsigned long` (the generation counter `sync_seq`) is a natural number
    reduced modulo `UMOD = 2 ^ 32` (this kernel targets 32-bit ARM).
  - `loff_t` / `s64` values are integers; where the C code can wrap a signed
    64-bit addition, the wrap is made explicit via `s64wrap`.
  - External capabilities (write-back engine, block-device flush, quota sync,
    the per-file fsync operation) are oracles carried by the environment
    records; each syscall model returns its integer result together with a
    trace of the external operations it performed, so "no flush work was
    done" is expressible as an empty (or flush-free) trace.
  - The `CONFIG_DYNAMIC_FSYNC` globals (`dyn_fsync_active`,
    `early_suspend_active`) and `laptop_mode` form a configuration record
    that is passed to every entry point; functions whose C body never reads
    those globals ignore the record.
-/

/-- Modulus of `unsigned long` on this 32-bit ARM target. -/
def UMOD : Nat := 2 ^ 32

/-- Modulus of a 64-bit quantity (`loff_t` arithmetic wraps at 2^64). -/
def S64MOD : Int := 2 ^ 64

/-- LLONG_MAX, the largest signed 64-bit value. -/
def LLONG_MAX : Int := 2 ^ 63 - 1

/-- Wrap an unbounded integer to the signed 64-bit value produced by
64-bit twos-complement arithmetic. -/
def s64wrap (x : Int) : Int := (x + 2 ^ 63) % S64MOD - 2 ^ 63

/-- errno: invalid argument (asm-generic value 22). -/
def EINVAL : Int := 22

/-- errno: bad file descriptor (asm-generic value 9). -/
def EBADF : Int := 9

/-- errno: illegal seek (asm-generic value 29). -/
def ESPIPE : Int := 29

/-- sync_file_range flag SYNC_FILE_RANGE_WAIT_BEFORE. -/
def SYNC_FILE_RANGE_WAIT_BEFORE : Nat := 1

/-- sync_file_range flag SYNC_FILE_RANGE_WRITE. -/
def SYNC_FILE_RANGE_WRITE : Nat := 2

/-- sync_file_range flag SYNC_FILE_RANGE_WAIT_AFTER. -/
def SYNC_FILE_RANGE_WAIT_AFTER : Nat := 4

/-- VALID_FLAGS from fs/sync.c: the union of the three phase flags. -/
def VALID_FLAGS : Nat :=
  SYNC_FILE_RANGE_WAIT_BEFORE ||| SYNC_FILE_RANGE_WRITE ||| SYNC_FILE_RANGE_WAIT_AFTER

/-- The 32-bit complement `~VALID_FLAGS` used by `flags & ~VALID_FLAGS`
(flags is `unsigned int`, 32 bits wide). -/
def INVALID_FLAGS_MASK : Nat := 0xFFFFFFF8

/-- Modelled from the spec: `ULONG_CMP_GE` lives in a kernel header outside
the source tree of this repository; the spec describes it as a wrap-tolerant
greater-or-equal that "uses a signed-difference trick (treat the subtraction
as signed)".  `ulongSub a b` is the unsigned-long difference `a - b`
(reduced modulo `UMOD`). -/
def ulongSub (a b : Nat) : Nat := (a % UMOD + (UMOD - b % UMOD)) % UMOD

/-- Reinterpret an unsigned-long value as a signed machine integer
(twos complement): values below `UMOD / 2` are themselves, the rest are
negative. -/
def toSigned (x : Nat) : Int := if x < UMOD / 2 then (x : Int) else (x : Int) - UMOD

/-- Modelled from the spec: `ULONG_CMP_GE(a, b)` holds when the unsigned
difference `a - b`, treated as signed, is non-negative. -/
def ULONG_CMP_GE (a b : Nat) : Bool := decide (0 ≤ toSigned (ulongSub a b))

/-- Global configuration bits read by the entry points: the
`CONFIG_DYNAMIC_FSYNC` externs and `laptop_mode`. -/
structure Cfg where
  dyn_fsync_active : Bool
  early_suspend_active : Bool
  laptop_mode : Bool
deriving DecidableEq, Repr

/-- The `CONFIG_DYNAMIC_FSYNC` kill-switch condition
`dyn_fsync_active && !early_suspend_active`. -/
def dyn_fsync_bypass (cfg : Cfg) : Bool :=
  cfg.dyn_fsync_active && !cfg.early_suspend_active

/-- Default configuration: kill-switch off, laptop mode off. -/
def cfg0 : Cfg := ⟨false, false, false⟩

/-- Events recorded by the global-sync paths: the coalescing lock, the
generation-counter increments (with the value written), and the flush work
done by `do_sync` / `do_sync_work`. -/
inductive SyncEv where
  | lock
  | inc (v : Nat)
  | wakeupFlusherThreads
  | syncFilesystems (wait : Bool)
  | laptopSyncCompletion
  | emergencyComplete
  | unlock
deriving DecidableEq, Repr

/-- Model of `do_sync`: wake the flusher threads, then an async sweep followed by a
blocking sweep of all filesystems; `laptop_sync_completion` only under
`laptop_mode`. -/
def do_sync (cfg : Cfg) : List SyncEv :=
  [.wakeupFlusherThreads, .syncFilesystems false, .syncFilesystems true] ++
    (if cfg.laptop_mode then [.laptopSyncCompletion] else [])

/-- Result of `sys_sync`: the syscall return value, the final value of
`sync_seq`, and the trace of events performed while holding (or taking)
the coalescing mutex. -/
structure SyncRet where
  ret : Int
  seq : Nat
  trace : List SyncEv
deriving DecidableEq, Repr

/-- Model of `SYSCALL_DEFINE0(sync)` from fs/sync.c.  `snap` is the value of
`sync_seq` read before `mutex_lock(&sync_mutex)`; `seq` is the value of
`sync_seq` observed after acquiring the mutex (`snap_done`).  The body has
no `CONFIG_DYNAMIC_FSYNC` guard, so `cfg` is ignored. -/
def sys_sync (_cfg : Cfg) (snap seq : Nat) : SyncRet :=
  let snap_done := seq
  if ULONG_CMP_GE snap_done (((snap + 3) % UMOD) &&& (UMOD - 2)) then
    { ret := 0, seq := seq, trace := [.lock, .unlock] }
  else
    { ret := 0, seq := (seq + 2) % UMOD,
      trace := [.lock, .inc ((seq + 1) % UMOD)] ++ do_sync _cfg ++
               [.inc ((seq + 2) % UMOD), .unlock] }

/-- Model of `do_sync_work`, the body of the emergency-sync work item: two
non-waiting sweeps of all filesystems, then the completion printk. -/
def do_sync_work : List SyncEv :=
  [.syncFilesystems false, .syncFilesystems false, .emergencyComplete]

/-- Model of `emergency_sync`: a void function; `allocOk` is whether the
`kmalloc(GFP_ATOMIC)` of the work item succeeded.  On success the work item
running `do_sync_work` is queued; on failure nothing happens. -/
def emergency_sync (allocOk : Bool) : Unit × Option (List SyncEv) :=
  ((), if allocOk then some do_sync_work else none)

/-- External operations performed while flushing one volume (super block).
Each carries the `wait` mode it was invoked with; `syncInodes` is the
blocking inode write-back (`sync_inodes_sb`), `writebackInodes` the
non-blocking one (`writeback_inodes_sb`). -/
inductive VolOp where
  | quotaSync (wait : Bool)
  | syncInodes
  | writebackInodes
  | syncFs (wait : Bool)
  | syncBlockdev (wait : Bool)
deriving DecidableEq, Repr

/-- Whether a volume operation blocks until completion. -/
def VolOp.blocking : VolOp → Bool
  | .quotaSync w => w
  | .syncInodes => true
  | .writebackInodes => false
  | .syncFs w => w
  | .syncBlockdev w => w

/-- A super block (volume handle) together with the oracle results of the
external capabilities the flush path calls.  `noopBdi` models
`sb->s_bdi == &noop_backing_dev_info`; `rdonly` models
`sb->s_flags & MS_RDONLY`; `hasQuotaSync` models
`sb->s_qcop && sb->s_qcop->quota_sync`; `hasSyncFs` models
`sb->s_op->sync_fs != NULL`.  The integer results of `quota_sync` and
`sync_fs` are recorded even though the C code discards them; `bdevRes` is
the result of `__sync_blockdev(sb->s_bdev, wait)`. -/
structure Super where
  noopBdi : Bool
  rdonly : Bool
  hasQuotaSync : Bool
  quotaRes : Bool → Int
  hasSyncFs : Bool
  syncFsRes : Bool → Int
  bdevRes : Bool → Int

/-- Model of `__sync_filesystem(sb, wait)`: the single-pass volume flush.  Returns
the syscall-style result and the trace of capability invocations, in
program order. -/
def __sync_filesystem (sb : Super) (wait : Bool) : Int × List VolOp :=
  if sb.noopBdi then (0, [])
  else
    ((sb.bdevRes wait),
      (if sb.hasQuotaSync then [.quotaSync wait] else []) ++
      [if wait then .syncInodes else .writebackInodes] ++
      (if sb.hasSyncFs then [.syncFs wait] else []) ++
      [.syncBlockdev wait])

/-- Model of `sync_filesystem(sb)`: the two-pass (async then blocking) flush of one
volume used by syncfs.  `emergency` models the global
`vfs_emergency_remount` atomic: when set, the first pass already waits. -/
def sync_filesystem (sb : Super) (emergency : Bool) : Int × List VolOp :=
  if sb.rdonly then (0, [])
  else
    let first := if emergency then __sync_filesystem sb true
                 else __sync_filesystem sb false
    if first.1 < 0 then first
    else
      let second := __sync_filesystem sb true
      (second.1, first.2 ++ second.2)

/-- Model of `SYSCALL_DEFINE1(syncfs, fd)`: resolve the descriptor (`none` models
`fget_light` failing, yielding `-EBADF`), then run `sync_filesystem` on the
super block of the file under `s_umount`.  The body has no
`CONFIG_DYNAMIC_FSYNC` guard, so `cfg` is ignored. -/
def sys_syncfs (_cfg : Cfg) (emergency : Bool) (file : Option Super) :
    Int × List VolOp :=
  match file with
  | none => (-EBADF, [])
  | some sb => sync_filesystem sb emergency

/-- Events on the single-file fsync path: one invocation of the
fsync capability of the file with its arguments. -/
inductive FsEv where
  | fsyncCall (start endbyte : Int) (datasync : Bool)
deriving DecidableEq, Repr

/-- An open file on the fsync path: whether `file->f_op` is non-null,
whether `file->f_op->fsync` is non-null, and the oracle result of calling
that capability. -/
structure FsFile where
  hasFOp : Bool
  hasFsync : Bool
  fsyncRes : Int → Int → Bool → Int

/-- Model of `vfs_fsync_range(file, start, end, datasync)`: guarded by the
`CONFIG_DYNAMIC_FSYNC` kill-switch; returns `-EINVAL` when the file has no
fsync capability; otherwise delegates to the capability.  The
trace records the capability invocation (the trace is empty exactly when no
flush work was delegated). -/
def vfs_fsync_range (cfg : Cfg) (f : FsFile) (start endbyte : Int)
    (datasync : Bool) : Int × List FsEv :=
  if dyn_fsync_bypass cfg = true then (0, [])
  else if f.hasFOp = false ∨ f.hasFsync = false then (-EINVAL, [])
  else (f.fsyncRes start endbyte datasync, [.fsyncCall start endbyte datasync])

/-- Model of `vfs_fsync(file, datasync)` = `vfs_fsync_range(file, 0, LLONG_MAX,
datasync)`. -/
def vfs_fsync (cfg : Cfg) (f : FsFile) (datasync : Bool) : Int × List FsEv :=
  vfs_fsync_range cfg f 0 LLONG_MAX datasync

/-- Model of `do_fsync(fd, datasync)`: resolve the descriptor (`none` models `fget`
failing, yielding `-EBADF`) and call `vfs_fsync`.  The path lookup and
5-second timing diagnostic are observational only and are not modelled. -/
def do_fsync (cfg : Cfg) (file : Option FsFile) (datasync : Bool) :
    Int × List FsEv :=
  match file with
  | none => (-EBADF, [])
  | some f => vfs_fsync cfg f datasync

/-- Model of `SYSCALL_DEFINE1(fsync, fd)`: kill-switch short-circuit, then
`do_fsync(fd, 0)`. -/
def sys_fsync (cfg : Cfg) (file : Option FsFile) : Int × List FsEv :=
  if dyn_fsync_bypass cfg = true then (0, [])
  else do_fsync cfg file false

/-- Model of `SYSCALL_DEFINE1(fdatasync, fd)`: the kill-switch block in this
function is compiled out (`#if 0`), so it is `do_fsync(fd, 1)` directly. -/
def sys_fdatasync (cfg : Cfg) (file : Option FsFile) : Int × List FsEv :=
  do_fsync cfg file true

/-- POSIX file-type field mask S_IFMT. -/
def S_IFMT : Nat := 0xF000

/-- S_ISREG: regular file. -/
def S_ISREG (m : Nat) : Prop := m &&& S_IFMT = 0x8000

/-- S_ISBLK: block device. -/
def S_ISBLK (m : Nat) : Prop := m &&& S_IFMT = 0x6000

/-- S_ISDIR: directory. -/
def S_ISDIR (m : Nat) : Prop := m &&& S_IFMT = 0x4000

/-- S_ISLNK: symbolic link. -/
def S_ISLNK (m : Nat) : Prop := m &&& S_IFMT = 0xA000

instance (m : Nat) : Decidable (S_ISREG m) := by unfold S_ISREG; infer_instance
instance (m : Nat) : Decidable (S_ISBLK m) := by unfold S_ISBLK; infer_instance
instance (m : Nat) : Decidable (S_ISDIR m) := by unfold S_ISDIR; infer_instance
instance (m : Nat) : Decidable (S_ISLNK m) := by unfold S_ISLNK; infer_instance

/-- PAGE_CACHE_SHIFT on this target (4 KiB pages). -/
def PAGE_CACHE_SHIFT : Nat := 12

/-- The first byte offset not representable through a 32-bit page index:
`0x100000000ULL << PAGE_CACHE_SHIFT`. -/
def pgLimit : Int := ((0x100000000 : Nat) <<< PAGE_CACHE_SHIFT : Nat)

/-- The file resolved by `fget_light` on the sync_file_range path:
its inode mode bits and whether `file->f_mapping` is non-null. -/
structure SfrFile where
  i_mode : Nat
  hasMapping : Bool
deriving DecidableEq, Repr

/-- Environment of one sync_file_range call: whether `sizeof(pgoff_t) == 4`
(32-bit page-index addressing domain), the descriptor-resolution result,
and the oracle results of the three write-back engine calls
(`filemap_fdatawait_range` in phase 1, `filemap_fdatawrite_range` in
phase 2, `filemap_fdatawait_range` again in phase 3). -/
structure SfrEnv where
  pgoff4 : Bool
  file : Option SfrFile
  wbRes : Int
  wrRes : Int
  waRes : Int

/-- External write-back engine calls of the range engine, with the byte
range arguments each was invoked with. -/
inductive RangeOp where
  | fdatawait (offset endbyte : Int)
  | fdatawrite (offset endbyte : Int)
deriving DecidableEq, Repr

/-- The inclusive end-byte argument a range operation was invoked with. -/
def RangeOp.endbyte : RangeOp → Int
  | .fdatawait _ e => e
  | .fdatawrite _ e => e

/-- The phase block of `sys_sync_file_range` (fs/sync.c lines 340-355):
`ret = 0`; phase 1 if WAIT_BEFORE, abort on negative; phase 2 if WRITE,
abort on negative; phase 3 if WAIT_AFTER, its result final.  `wb`, `wr`,
`wa` are the oracle results of the three engine calls. -/
def sfr_phases (flags : Nat) (offset endbyte : Int) (wb wr wa : Int) :
    Int × List RangeOp :=
  let r0 : Int := 0
  let s1 := if flags &&& SYNC_FILE_RANGE_WAIT_BEFORE ≠ 0
            then (wb, [RangeOp.fdatawait offset endbyte]) else (r0, [])
  if s1.1 < 0 then s1
  else
    let s2 := if flags &&& SYNC_FILE_RANGE_WRITE ≠ 0
              then (wr, [RangeOp.fdatawrite offset endbyte]) else (s1.1, [])
    if s2.1 < 0 then (s2.1, s1.2 ++ s2.2)
    else if flags &&& SYNC_FILE_RANGE_WAIT_AFTER ≠ 0
    then (wa, s1.2 ++ s2.2 ++ [RangeOp.fdatawait offset endbyte])
    else (s2.1, s1.2 ++ s2.2)

/-- The 32-bit page-index normalization and end-byte computation of
`sys_sync_file_range` (fs/sync.c lines 308-321), applied after validation:
clamp `nbytes` to 0 when the end exceeds the 32-bit page-index domain, then
`endbyte = LLONG_MAX` when `nbytes == 0`, else `endbyte - 1`. -/
def sfr_endbyte (pgoff4 : Bool) (endbyte nbytes : Int) : Int :=
  let nbytes' := if pgoff4 = true ∧ pgLimit ≤ endbyte then 0 else nbytes
  if nbytes' = 0 then LLONG_MAX else endbyte - 1

/-- Model of `SYSCALL_DEFINE(sync_file_range)(fd, offset, nbytes, flags)` from
fs/sync.c: kill-switch guard, flag and signed-overflow validation, 32-bit
page-index normalization, descriptor resolution, file-kind and mapping
checks, then the three phases.  Returns the result and the trace of
write-back engine invocations (empty when no flush work was started). -/
def sys_sync_file_range (cfg : Cfg) (e : SfrEnv) (offset nbytes : Int)
    (flags : Nat) : Int × List RangeOp :=
  if dyn_fsync_bypass cfg = true then (0, [])
  else
    let endbyte := s64wrap (offset + nbytes)
    if flags &&& INVALID_FLAGS_MASK ≠ 0 then (-EINVAL, [])
    else if offset < 0 then (-EINVAL, [])
    else if endbyte < 0 then (-EINVAL, [])
    else if endbyte < offset then (-EINVAL, [])
    else if e.pgoff4 = true ∧ pgLimit ≤ offset then (0, [])
    else
      match e.file with
      | none => (-EBADF, [])
      | some f =>
        if ¬(S_ISREG f.i_mode ∨ S_ISBLK f.i_mode ∨ S_ISDIR f.i_mode ∨
             S_ISLNK f.i_mode) then (-ESPIPE, [])
        else if f.hasMapping = false then (-EINVAL, [])
        else sfr_phases flags offset (sfr_endbyte e.pgoff4 endbyte nbytes)
               e.wbRes e.wrRes e.waRes

/-- Model of `SYSCALL_DEFINE(sync_file_range2)(fd, flags, offset, nbytes)`:
kill-switch guard, then `sys_sync_file_range` with reordered arguments. -/
def sys_sync_file_range2 (cfg : Cfg) (e : SfrEnv) (flags : Nat)
    (offset nbytes : Int) : Int × List RangeOp :=
  if dyn_fsync_bypass cfg = true then (0, [])
  else sys_sync_file_range cfg e offset nbytes flags

/-- A file with neither `f_op` nor an `fsync` capability. -/
def fileNoCap : FsFile := ⟨false, false, fun _ _ _ => 0⟩

/-- A plain writable volume with no optional capabilities whose external
flushes all succeed. -/
def sbPlain : Super := ⟨false, false, false, fun _ => 0, false, fun _ => 0, fun _ => 0⟩

/-- Modelled from the spec: the error taxonomy of spec section 7 lists
`Unsupported` ("object has no flush capability") as an entry distinct from
`InvalidArgument`, and the claims identify `InvalidArgument` with EINVAL;
so a return value is an Unsupported error code only if it is an error
distinct from `-EINVAL`. -/
def UnsupportedCode (r : Int) : Prop := r < 0 ∧ r ≠ -EINVAL

lemma umod_int : ((UMOD : Nat) : Int) = 4294967296 := by norm_num [UMOD]

lemma ulongSub_int (a b : Nat) :
    (ulongSub a b : Int) = ((a : Int) - b) % ((UMOD : Nat) : Int) := by
  have hb : b % UMOD ≤ UMOD := le_of_lt (Nat.mod_lt _ (by decide))
  unfold ulongSub
  push_cast [hb]
  rw [umod_int]
  omega

lemma ulongSub_mod_int (d t : Nat) :
    (ulongSub (d % UMOD) (t % UMOD) : Int) = ((d : Int) - t) % 4294967296 := by
  rw [ulongSub_int]
  push_cast
  rw [umod_int]
  omega

/-- C2: the coalescing comparison `ULONG_CMP_GE` is computed as a signed
difference over the unsigned counter ring: for any two mathematical counter
values `d` (done) and `t` (threshold) whose ring distance is less than half
the counter range — in particular across a single wraparound of the
32-bit counter — `ULONG_CMP_GE` applied to their machine representations
answers exactly the mathematical question `t ≤ d`. -/
theorem ULONG_CMP_GE_correct (d t : Nat)
    (h1 : (d : Int) - (t : Int) < ((UMOD : Nat) : Int) / 2)
    (h2 : (t : Int) - (d : Int) < ((UMOD : Nat) : Int) / 2) :
    ULONG_CMP_GE (d % UMOD) (t % UMOD) = true ↔ t ≤ d := by
  have hx := ulongSub_mod_int d t
  have hxlt : ulongSub (d % UMOD) (t % UMOD) < UMOD := by
    unfold ulongSub
    exact Nat.mod_lt _ (by decide)
  have hU : UMOD = 4294967296 := by decide
  rw [umod_int] at h1 h2
  simp only [ULONG_CMP_GE, toSigned, decide_eq_true_eq]
  split_ifs with hlt
  · omega
  · rw [umod_int]
    omega

/-- C2 witness: immediately after a wraparound the comparison still answers
correctly; the true counter `UMOD + 1` (machine value 1) has advanced past
the threshold `UMOD - 1`. -/
theorem ULONG_CMP_GE_correct_witness :
    ULONG_CMP_GE ((UMOD + 1) % UMOD) ((UMOD - 1) % UMOD) = true :=
  (ULONG_CMP_GE_correct (UMOD + 1) (UMOD - 1) (by decide) (by decide)).mpr
    (by decide)

/-- C1: for every `sync()` call with pre-lock snapshot `snap` and in-lock
counter value `seq` (even, as the lock invariant guarantees): the call
always returns 0; when `ULONG_CMP_GE` accepts the even-rounded threshold
`(snap + 3) & ~1`, it releases the lock without mutating the counter and
without any flush work; otherwise it increments the counter by exactly 1
(making it odd), runs the full `do_sync` flush pass, increments by exactly
1 again (making it even), and only then releases the lock. -/
theorem sys_sync_coalescing (cfg : Cfg) (snap seq : Nat)
    (hseq : seq < UMOD) (heven : seq % 2 = 0) :
    (sys_sync cfg snap seq).ret = 0 ∧
    (ULONG_CMP_GE seq (((snap + 3) % UMOD) &&& (UMOD - 2)) = true →
      (sys_sync cfg snap seq).seq = seq ∧
      (sys_sync cfg snap seq).trace = [.lock, .unlock]) ∧
    (ULONG_CMP_GE seq (((snap + 3) % UMOD) &&& (UMOD - 2)) = false →
      (sys_sync cfg snap seq).seq = (seq + 2) % UMOD ∧
      (sys_sync cfg snap seq).seq % 2 = 0 ∧
      (seq + 1) % 2 = 1 ∧
      (sys_sync cfg snap seq).trace =
        [.lock, .inc (seq + 1)] ++ do_sync cfg ++
          [.inc ((seq + 2) % UMOD), .unlock] ∧
      do_sync cfg ≠ []) := by
  have hU : UMOD = 4294967296 := by decide
  refine ⟨?_, ?_, ?_⟩
  · simp only [sys_sync]
    split <;> rfl
  · intro hcmp
    simp [sys_sync, hcmp]
  · intro hcmp
    have hone : (seq + 1) % UMOD = seq + 1 := Nat.mod_eq_of_lt (by omega)
    have hodd : (seq + 1) % 2 = 1 := by omega
    have hpar : (seq + 2) % UMOD % 2 = 0 := by
      have h2 := Nat.mod_mod_of_dvd (seq + 2) (by decide : 2 ∣ UMOD)
      omega
    simp [sys_sync, hcmp, hone, hodd, hpar, do_sync]

/-- C1 witness: with snapshot 5 and in-lock counter 0 the threshold is 8,
the comparison rejects, and the call runs the flush pass, leaving the
counter at 2. -/
theorem sys_sync_coalescing_witness :
    (sys_sync cfg0 5 0).ret = 0 ∧ (sys_sync cfg0 5 0).seq = (0 + 2) % UMOD := by
  have h := sys_sync_coalescing cfg0 5 0 (by decide) (by decide)
  exact ⟨h.1, (h.2.2 (by decide)).1⟩

lemma s64wrap_sum_eq (offset nbytes : Int) (h1 : 0 ≤ offset)
    (h2 : offset < 2 ^ 63) (h3 : -(2 ^ 63) ≤ nbytes) (h4 : nbytes < 2 ^ 63)
    (h5 : 0 ≤ s64wrap (offset + nbytes)) :
    s64wrap (offset + nbytes) = offset + nbytes := by
  simp only [s64wrap, S64MOD] at *
  omega

lemma sfr_valid_eq (cfg : Cfg) (e : SfrEnv) (offset nbytes : Int)
    (flags : Nat) (f : SfrFile)
    (hks : dyn_fsync_bypass cfg = false)
    (hfl : flags &&& INVALID_FLAGS_MASK = 0)
    (hoff : 0 ≤ offset) (hend : 0 ≤ s64wrap (offset + nbytes))
    (hord : offset ≤ s64wrap (offset + nbytes))
    (hskip : ¬(e.pgoff4 = true ∧ pgLimit ≤ offset))
    (hfile : e.file = some f)
    (hmode : S_ISREG f.i_mode ∨ S_ISBLK f.i_mode ∨ S_ISDIR f.i_mode ∨
      S_ISLNK f.i_mode)
    (hmap : f.hasMapping = true) :
    sys_sync_file_range cfg e offset nbytes flags =
      sfr_phases flags offset
        (sfr_endbyte e.pgoff4 (s64wrap (offset + nbytes)) nbytes)
        e.wbRes e.wrRes e.waRes := by
  simp only [sys_sync_file_range]
  rw [if_neg (by simp [hks]), if_neg (by simp [hfl]),
      if_neg (not_lt.mpr hoff), if_neg (not_lt.mpr hend),
      if_neg (not_lt.mpr hord), if_neg hskip, hfile]
  dsimp only
  rw [if_neg (not_not_intro hmode), if_neg (by simp [hmap])]

lemma sfr_phases_wb_neg (flags : Nat) (offset endbyte wb wr wa : Int)
    (h : flags &&& SYNC_FILE_RANGE_WAIT_BEFORE ≠ 0) (hn : wb < 0) :
    sfr_phases flags offset endbyte wb wr wa =
      (wb, [.fdatawait offset endbyte]) := by
  simp [sfr_phases, h, hn]

lemma sfr_phases_wr_neg (flags : Nat) (offset endbyte wb wr wa : Int)
    (h1 : ¬(flags &&& SYNC_FILE_RANGE_WAIT_BEFORE ≠ 0 ∧ wb < 0))
    (h2 : flags &&& SYNC_FILE_RANGE_WRITE ≠ 0) (hn : wr < 0) :
    sfr_phases flags offset endbyte wb wr wa =
      (wr, (if flags &&& SYNC_FILE_RANGE_WAIT_BEFORE ≠ 0
            then [RangeOp.fdatawait offset endbyte] else []) ++
           [.fdatawrite offset endbyte]) := by
  by_cases hb : flags &&& SYNC_FILE_RANGE_WAIT_BEFORE ≠ 0
  · have hwb : ¬ wb < 0 := fun hc => h1 ⟨hb, hc⟩
    simp [sfr_phases, hb, hwb, h2, hn]
  · simp [sfr_phases, hb, h2, hn]

lemma sfr_phases_wa (flags : Nat) (offset endbyte wb wr wa : Int)
    (h1 : ¬(flags &&& SYNC_FILE_RANGE_WAIT_BEFORE ≠ 0 ∧ wb < 0))
    (h2 : ¬(flags &&& SYNC_FILE_RANGE_WRITE ≠ 0 ∧ wr < 0))
    (h3 : flags &&& SYNC_FILE_RANGE_WAIT_AFTER ≠ 0) :
    sfr_phases flags offset endbyte wb wr wa =
      (wa, (if flags &&& SYNC_FILE_RANGE_WAIT_BEFORE ≠ 0
            then [RangeOp.fdatawait offset endbyte] else []) ++
           (if flags &&& SYNC_FILE_RANGE_WRITE ≠ 0
            then [RangeOp.fdatawrite offset endbyte] else []) ++
           [.fdatawait offset endbyte]) := by
  by_cases hb : flags &&& SYNC_FILE_RANGE_WAIT_BEFORE ≠ 0 <;>
    by_cases hw : flags &&& SYNC_FILE_RANGE_WRITE ≠ 0
  · have hwb : ¬ wb < 0 := fun hc => h1 ⟨hb, hc⟩
    have hwr : ¬ wr < 0 := fun hc => h2 ⟨hw, hc⟩
    simp [sfr_phases, hb, hw, hwb, hwr, h3]
  · have hwb : ¬ wb < 0 := fun hc => h1 ⟨hb, hc⟩
    simp [sfr_phases, hb, hw, hwb, h3]
  · have hwr : ¬ wr < 0 := fun hc => h2 ⟨hw, hc⟩
    simp [sfr_phases, hb, hw, hwr, h3]
  · simp [sfr_phases, hb, hw, h3]

lemma sfr_phases_done (flags : Nat) (offset endbyte wb wr wa : Int)
    (hwb : wb ≤ 0) (hwr : wr ≤ 0)
    (h1 : ¬(flags &&& SYNC_FILE_RANGE_WAIT_BEFORE ≠ 0 ∧ wb < 0))
    (h2 : ¬(flags &&& SYNC_FILE_RANGE_WRITE ≠ 0 ∧ wr < 0))
    (h3 : flags &&& SYNC_FILE_RANGE_WAIT_AFTER = 0) :
    sfr_phases flags offset endbyte wb wr wa =
      (0, (if flags &&& SYNC_FILE_RANGE_WAIT_BEFORE ≠ 0
           then [RangeOp.fdatawait offset endbyte] else []) ++
          (if flags &&& SYNC_FILE_RANGE_WRITE ≠ 0
           then [RangeOp.fdatawrite offset endbyte] else [])) := by
  by_cases hb : flags &&& SYNC_FILE_RANGE_WAIT_BEFORE ≠ 0 <;>
    by_cases hw : flags &&& SYNC_FILE_RANGE_WRITE ≠ 0
  · have hwb' : wb = 0 := le_antisymm hwb (not_lt.mp fun hc => h1 ⟨hb, hc⟩)
    have hwr' : wr = 0 := le_antisymm hwr (not_lt.mp fun hc => h2 ⟨hw, hc⟩)
    simp [sfr_phases, hb, hw, hwb', hwr', h3]
  · have hwb' : wb = 0 := le_antisymm hwb (not_lt.mp fun hc => h1 ⟨hb, hc⟩)
    simp [sfr_phases, hb, hw, hwb', h3]
  · have hwr' : wr = 0 := le_antisymm hwr (not_lt.mp fun hc => h2 ⟨hw, hc⟩)
    simp [sfr_phases, hb, hw, hwr', h3]
  · simp [sfr_phases, hb, hw, h3]

lemma sfr_phases_ops (flags : Nat) (offset endbyte wb wr wa : Int) :
    ∀ op ∈ (sfr_phases flags offset endbyte wb wr wa).2,
      op.endbyte = endbyte := by
  intro op hop
  have hcase : op = RangeOp.fdatawait offset endbyte ∨
      op = RangeOp.fdatawrite offset endbyte := by
    by_cases h1 : flags &&& SYNC_FILE_RANGE_WAIT_BEFORE ≠ 0 <;>
      by_cases h2 : flags &&& SYNC_FILE_RANGE_WRITE ≠ 0 <;>
      by_cases h3 : flags &&& SYNC_FILE_RANGE_WAIT_AFTER ≠ 0 <;>
      by_cases h4 : wb < 0 <;> by_cases h5 : wr < 0 <;>
      simp_all [sfr_phases] <;> tauto
  rcases hcase with h | h <;> subst h <;> rfl

/-- C3: `sync_file_range` validation (kill-switch off): any flag bit
outside the three phase flags, a negative signed-64-bit `offset`, a
negative signed-64-bit `offset + nbytes`, or `offset + nbytes < offset`
yields `-EINVAL` with no flush work; and a call that passes those checks
(and is not skipped by the 32-bit page-index early exit) on a resolved file
that is not a regular file, block device, directory or symbolic link yields
`-ESPIPE` with no flush work. -/
theorem sync_file_range_validation (cfg : Cfg) (e : SfrEnv)
    (offset nbytes : Int) (flags : Nat) (f : SfrFile)
    (hks : dyn_fsync_bypass cfg = false)
    (_hfl32 : flags < 2 ^ 32) :
    (flags &&& INVALID_FLAGS_MASK ≠ 0 ∨ offset < 0 ∨
        s64wrap (offset + nbytes) < 0 ∨ s64wrap (offset + nbytes) < offset →
      sys_sync_file_range cfg e offset nbytes flags = (-EINVAL, [])) ∧
    (flags &&& INVALID_FLAGS_MASK = 0 → 0 ≤ offset →
      0 ≤ s64wrap (offset + nbytes) → offset ≤ s64wrap (offset + nbytes) →
      ¬(e.pgoff4 = true ∧ pgLimit ≤ offset) →
      e.file = some f →
      ¬(S_ISREG f.i_mode ∨ S_ISBLK f.i_mode ∨ S_ISDIR f.i_mode ∨
        S_ISLNK f.i_mode) →
      sys_sync_file_range cfg e offset nbytes flags = (-ESPIPE, [])) := by
  constructor
  · intro h
    simp only [sys_sync_file_range]
    rw [if_neg (by simp [hks])]
    split_ifs with h1 h2 h3 h4 h5 <;> try rfl
    all_goals tauto
  · intro hfl hoff hend hord hskip hfile hmode
    simp only [sys_sync_file_range]
    rw [if_neg (by simp [hks]), if_neg (by simp [hfl]),
        if_neg (not_lt.mpr hoff), if_neg (not_lt.mpr hend),
        if_neg (not_lt.mpr hord), if_neg hskip, hfile]
    dsimp only
    rw [if_pos hmode]

/-- C3 witness: flag bit 8 yields `-EINVAL`; a FIFO (mode 0x1000) with
valid arguments yields `-ESPIPE`. -/
theorem sync_file_range_validation_witness :
    sys_sync_file_range cfg0 ⟨false, some ⟨0x1000, true⟩, 0, 0, 0⟩ 0 0 8 =
      (-EINVAL, []) ∧
    sys_sync_file_range cfg0 ⟨false, some ⟨0x1000, true⟩, 0, 0, 0⟩ 0 0 0 =
      (-ESPIPE, []) := by
  have h := sync_file_range_validation cfg0
      ⟨false, some ⟨0x1000, true⟩, 0, 0, 0⟩ 0 0 8 ⟨0x1000, true⟩
      (by decide) (by decide)
  have h2 := sync_file_range_validation cfg0
      ⟨false, some ⟨0x1000, true⟩, 0, 0, 0⟩ 0 0 0 ⟨0x1000, true⟩
      (by decide) (by decide)
  refine ⟨h.1 (Or.inl (by decide)), ?_⟩
  exact h2.2 (by decide) (by decide) (by decide) (by decide) (by decide)
    rfl (by decide)

lemma sfr_endbyte_char (offset nbytes : Int) :
    sfr_endbyte true (offset + nbytes) nbytes =
      (if nbytes = 0 ∨ pgLimit ≤ offset + nbytes then LLONG_MAX
       else offset + nbytes - 1) := by
  by_cases hc : pgLimit ≤ offset + nbytes <;> by_cases hz : nbytes = 0 <;>
    simp [sfr_endbyte, hc, hz]

/-- C4: on a 32-bit page-index addressing domain, a validated call whose
`offset` is at or beyond the representable byte range returns success with
no flush work; otherwise (reaching the phases on a good file) the executed
phases use the inclusive end byte `LLONG_MAX` whenever `nbytes` is 0 or
`offset + nbytes` reaches the domain limit (the clamp to "flush to end"),
and `offset + nbytes - 1` otherwise. -/
theorem sync_file_range_pgoff32 (cfg : Cfg) (e : SfrEnv)
    (offset nbytes : Int) (flags : Nat) (f : SfrFile)
    (hks : dyn_fsync_bypass cfg = false)
    (hpg : e.pgoff4 = true)
    (hfl : flags &&& INVALID_FLAGS_MASK = 0)
    (hb1 : 0 ≤ offset) (hb2 : offset < 2 ^ 63)
    (hb3 : -(2 ^ 63) ≤ nbytes) (hb4 : nbytes < 2 ^ 63)
    (hend : 0 ≤ s64wrap (offset + nbytes))
    (hord : offset ≤ s64wrap (offset + nbytes)) :
    (pgLimit ≤ offset →
      sys_sync_file_range cfg e offset nbytes flags = (0, [])) ∧
    (offset < pgLimit → e.file = some f →
      (S_ISREG f.i_mode ∨ S_ISBLK f.i_mode ∨ S_ISDIR f.i_mode ∨
        S_ISLNK f.i_mode) →
      f.hasMapping = true →
      sys_sync_file_range cfg e offset nbytes flags =
        sfr_phases flags offset
          (if nbytes = 0 ∨ pgLimit ≤ offset + nbytes then LLONG_MAX
           else offset + nbytes - 1) e.wbRes e.wrRes e.waRes ∧
      ∀ op ∈ (sys_sync_file_range cfg e offset nbytes flags).2,
        op.endbyte =
          (if nbytes = 0 ∨ pgLimit ≤ offset + nbytes then LLONG_MAX
           else offset + nbytes - 1)) := by
  have hsum := s64wrap_sum_eq offset nbytes hb1 hb2 hb3 hb4 hend
  constructor
  · intro hlim
    simp only [sys_sync_file_range]
    rw [if_neg (by simp [hks]), if_neg (by simp [hfl]),
        if_neg (not_lt.mpr hb1), if_neg (not_lt.mpr hend),
        if_neg (not_lt.mpr hord), if_pos ⟨hpg, hlim⟩]
  · intro hlt hfile hmode hmap
    have heq := sfr_valid_eq cfg e offset nbytes flags f hks hfl hb1 hend
      hord (fun hc => absurd hc.2 (not_le.mpr hlt)) hfile hmode hmap
    rw [hsum, hpg] at heq
    rw [heq, sfr_endbyte_char]
    exact ⟨rfl, sfr_phases_ops flags offset _ e.wbRes e.wrRes e.waRes⟩

/-- C4 witness: with a 32-bit page-index domain, an offset at the domain
limit returns success with no work; an in-range offset whose end crosses
the limit is clamped and flushes to `LLONG_MAX`. -/
theorem sync_file_range_pgoff32_witness :
    sys_sync_file_range cfg0 ⟨true, some ⟨0x8000, true⟩, 0, 0, 0⟩
      pgLimit 5 0 = (0, []) ∧
    sys_sync_file_range cfg0 ⟨true, some ⟨0x8000, true⟩, 0, 0, 0⟩
      5 pgLimit 2 =
      (0, [.fdatawrite 5 LLONG_MAX]) := by
  constructor
  · exact (sync_file_range_pgoff32 cfg0 ⟨true, some ⟨0x8000, true⟩, 0, 0, 0⟩
      pgLimit 5 0 ⟨0x8000, true⟩ (by decide) rfl (by decide) (by decide)
      (by decide) (by decide) (by decide) (by decide) (by decide)).1
      (by decide)
  · have h := (sync_file_range_pgoff32 cfg0
      ⟨true, some ⟨0x8000, true⟩, 0, 0, 0⟩ 5 pgLimit 2 ⟨0x8000, true⟩
      (by decide) rfl (by decide) (by decide) (by decide) (by decide)
      (by decide) (by decide) (by decide)).2
      (by decide) rfl (by decide) rfl
    rw [h.1]
    decide

/-- C5: for a validated call that reaches the phase block (kill-switch off,
flags valid, range valid, not skipped, good file), with the write-back
engine returning 0 on success and a negative value on failure: the phases
run in the fixed order wait-before, write, wait-after, each only when its
flag is set; a negative result of the wait-before or write phase aborts the
rest and becomes the overall result; the result of a reached wait-after phase is
the overall result; and with no failing selected phase the call returns 0. -/
theorem sync_file_range_phases (cfg : Cfg) (e : SfrEnv)
    (offset nbytes : Int) (flags : Nat) (f : SfrFile)
    (hks : dyn_fsync_bypass cfg = false)
    (hfl : flags &&& INVALID_FLAGS_MASK = 0)
    (hoff : 0 ≤ offset) (hend : 0 ≤ s64wrap (offset + nbytes))
    (hord : offset ≤ s64wrap (offset + nbytes))
    (hskip : ¬(e.pgoff4 = true ∧ pgLimit ≤ offset))
    (hfile : e.file = some f)
    (hmode : S_ISREG f.i_mode ∨ S_ISBLK f.i_mode ∨ S_ISDIR f.i_mode ∨
      S_ISLNK f.i_mode)
    (hmap : f.hasMapping = true)
    (hwb : e.wbRes ≤ 0) (hwr : e.wrRes ≤ 0) :
    (flags &&& SYNC_FILE_RANGE_WAIT_BEFORE ≠ 0 → e.wbRes < 0 →
      sys_sync_file_range cfg e offset nbytes flags =
        (e.wbRes, [.fdatawait offset
          (sfr_endbyte e.pgoff4 (s64wrap (offset + nbytes)) nbytes)])) ∧
    (¬(flags &&& SYNC_FILE_RANGE_WAIT_BEFORE ≠ 0 ∧ e.wbRes < 0) →
      flags &&& SYNC_FILE_RANGE_WRITE ≠ 0 → e.wrRes < 0 →
      sys_sync_file_range cfg e offset nbytes flags =
        (e.wrRes,
          (if flags &&& SYNC_FILE_RANGE_WAIT_BEFORE ≠ 0
           then [RangeOp.fdatawait offset
             (sfr_endbyte e.pgoff4 (s64wrap (offset + nbytes)) nbytes)]
           else []) ++
          [.fdatawrite offset
            (sfr_endbyte e.pgoff4 (s64wrap (offset + nbytes)) nbytes)])) ∧
    (¬(flags &&& SYNC_FILE_RANGE_WAIT_BEFORE ≠ 0 ∧ e.wbRes < 0) →
      ¬(flags &&& SYNC_FILE_RANGE_WRITE ≠ 0 ∧ e.wrRes < 0) →
      flags &&& SYNC_FILE_RANGE_WAIT_AFTER ≠ 0 →
      sys_sync_file_range cfg e offset nbytes flags =
        (e.waRes,
          (if flags &&& SYNC_FILE_RANGE_WAIT_BEFORE ≠ 0
           then [RangeOp.fdatawait offset
             (sfr_endbyte e.pgoff4 (s64wrap (offset + nbytes)) nbytes)]
           else []) ++
          (if flags &&& SYNC_FILE_RANGE_WRITE ≠ 0
           then [RangeOp.fdatawrite offset
             (sfr_endbyte e.pgoff4 (s64wrap (offset + nbytes)) nbytes)]
           else []) ++
          [.fdatawait offset
            (sfr_endbyte e.pgoff4 (s64wrap (offset + nbytes)) nbytes)])) ∧
    (¬(flags &&& SYNC_FILE_RANGE_WAIT_BEFORE ≠ 0 ∧ e.wbRes < 0) →
      ¬(flags &&& SYNC_FILE_RANGE_WRITE ≠ 0 ∧ e.wrRes < 0) →
      flags &&& SYNC_FILE_RANGE_WAIT_AFTER = 0 →
      sys_sync_file_range cfg e offset nbytes flags =
        (0,
          (if flags &&& SYNC_FILE_RANGE_WAIT_BEFORE ≠ 0
           then [RangeOp.fdatawait offset
             (sfr_endbyte e.pgoff4 (s64wrap (offset + nbytes)) nbytes)]
           else []) ++
          (if flags &&& SYNC_FILE_RANGE_WRITE ≠ 0
           then [RangeOp.fdatawrite offset
             (sfr_endbyte e.pgoff4 (s64wrap (offset + nbytes)) nbytes)]
           else []))) := by
  have heq := sfr_valid_eq cfg e offset nbytes flags f hks hfl hoff hend
    hord hskip hfile hmode hmap
  refine ⟨?_, ?_, ?_, ?_⟩
  · intro h hn
    rw [heq]
    exact sfr_phases_wb_neg flags offset _ _ _ _ h hn
  · intro h1 h2 hn
    rw [heq]
    exact sfr_phases_wr_neg flags offset _ _ _ _ h1 h2 hn
  · intro h1 h2 h3
    rw [heq]
    exact sfr_phases_wa flags offset _ _ _ _ h1 h2 h3
  · intro h1 h2 h3
    rw [heq]
    exact sfr_phases_done flags offset _ _ _ _ hwb hwr h1 h2 h3

/-- C5 witness: with all three flags selected, a failing write phase
(result -9) after a successful wait-before aborts the wait-after phase and
is the overall result. -/
theorem sync_file_range_phases_witness :
    sys_sync_file_range cfg0 ⟨false, some ⟨0x8000, true⟩, 0, -9, 0⟩ 5 7 7 =
      (-9, [.fdatawait 5 11, .fdatawrite 5 11]) := by
  have h := (sync_file_range_phases cfg0
      ⟨false, some ⟨0x8000, true⟩, 0, -9, 0⟩ 5 7 7 ⟨0x8000, true⟩
      (by decide) (by decide) (by decide) (by decide) (by decide)
      (by decide) rfl (by decide) rfl (by decide) (by decide)).2.1
      (by decide) (by decide) (by decide)
  rw [h]
  decide

/-- C6: a volume backed by the no-op backing device flushes to success
immediately with no capability invoked, and a read-only volume returns
success immediately; otherwise the result of the single-pass flush is exactly
the result of the block-device flush (quota-sync, inode write-back and the
volume metadata-flush hook results are discarded), while those phases are
still attempted, in order, before the block-device flush. -/
theorem sync_filesystem_error_policy (sb : Super) (wait : Bool) :
    (sb.noopBdi = true → ∀ w, __sync_filesystem sb w = (0, [])) ∧
    (sb.rdonly = true → ∀ em, sync_filesystem sb em = (0, [])) ∧
    (sb.noopBdi = false →
      (__sync_filesystem sb wait).1 = sb.bdevRes wait ∧
      (__sync_filesystem sb wait).2.getLast? = some (.syncBlockdev wait) ∧
      (sb.hasQuotaSync = true →
        VolOp.quotaSync wait ∈ (__sync_filesystem sb wait).2.dropLast) ∧
      (if wait then VolOp.syncInodes else VolOp.writebackInodes) ∈
        (__sync_filesystem sb wait).2.dropLast ∧
      (sb.hasSyncFs = true →
        VolOp.syncFs wait ∈ (__sync_filesystem sb wait).2.dropLast)) := by
  refine ⟨?_, ?_, ?_⟩
  · intro hn w
    simp [__sync_filesystem, hn]
  · intro hr em
    simp [sync_filesystem, hr]
  · intro hn
    by_cases hq : sb.hasQuotaSync <;> by_cases hs : sb.hasSyncFs <;>
      cases wait <;>
      simp [__sync_filesystem, hn, hq, hs, List.getLast?, List.dropLast]

/-- C6 witness: the single-pass flush of a plain writable volume returns the
block-device result and performs write-back before the block-device
flush. -/
theorem sync_filesystem_error_policy_witness :
    (__sync_filesystem sbPlain false).1 = sbPlain.bdevRes false ∧
    (__sync_filesystem sbPlain false).2.getLast? =
      some (.syncBlockdev false) := by
  have h := (sync_filesystem_error_policy sbPlain false).2.2 rfl
  exact ⟨h.1, h.2.1⟩

/-- C10: in the two-pass flush used by syncfs (with the emergency-remount
flag clear), a negative result of the first, non-waiting pass is returned
as the result of the call and the blocking pass is not attempted — no blocking
operation appears in the trace; when the first pass returns non-negative,
the blocking pass runs and its result is the result of the call (and
hence of syncfs). -/
theorem syncfs_first_pass_error (sb : Super) (hrd : sb.rdonly = false) :
    ((__sync_filesystem sb false).1 < 0 →
      sync_filesystem sb false = __sync_filesystem sb false ∧
      ∀ op ∈ (sync_filesystem sb false).2, VolOp.blocking op = false) ∧
    (0 ≤ (__sync_filesystem sb false).1 →
      (sync_filesystem sb false).1 = (__sync_filesystem sb true).1 ∧
      (sync_filesystem sb false).2 =
        (__sync_filesystem sb false).2 ++ (__sync_filesystem sb true).2) ∧
    (∀ cfg, sys_syncfs cfg false (some sb) = sync_filesystem sb false) := by
  refine ⟨?_, ?_, fun cfg => rfl⟩
  · intro hneg
    have heq : sync_filesystem sb false = __sync_filesystem sb false := by
      simp [sync_filesystem, hrd, hneg]
    refine ⟨heq, ?_⟩
    rw [heq]
    intro op hop
    by_cases hn : sb.noopBdi <;> by_cases hq : sb.hasQuotaSync <;>
      by_cases hs : sb.hasSyncFs <;>
      simp_all [__sync_filesystem, VolOp.blocking] <;>
      rcases hop with h | h | h | h <;> simp_all [VolOp.blocking]
  · intro hpos
    constructor <;>
      simp [sync_filesystem, hrd, not_lt.mpr hpos]

/-- C10 witness: a volume whose non-waiting block-device flush fails with
-5 propagates -5 from the first pass and performs no blocking work. -/
theorem syncfs_first_pass_error_witness :
    sync_filesystem ⟨false, false, false, fun _ => 0, false, fun _ => 0,
        fun w => if w then 0 else -5⟩ false =
      __sync_filesystem ⟨false, false, false, fun _ => 0, false,
        fun _ => 0, fun w => if w then 0 else -5⟩ false := by
  exact ((syncfs_first_pass_error ⟨false, false, false, fun _ => 0, false,
    fun _ => 0, fun w => if w then 0 else -5⟩ rfl).1 (by decide)).1

/-- C9: `emergency_sync` is void (never returns an error); when the work
item allocation succeeds, the queued task performs exactly two non-waiting
sweeps of all volumes and then reports completion; when it fails, nothing
is queued and the call has no other effect. -/
theorem emergency_sync_spec :
    (∀ b : Bool, (emergency_sync b).1 = ()) ∧
    emergency_sync true = ((), some do_sync_work) ∧
    emergency_sync false = ((), none) ∧
    do_sync_work =
      [.syncFilesystems false, .syncFilesystems false, .emergencyComplete] ∧
    do_sync_work.count (.syncFilesystems false) = 2 ∧
    do_sync_work.count (.syncFilesystems true) = 0 := by
  exact ⟨fun b => rfl, rfl, rfl, rfl, by decide, by decide⟩

/-- C7 counterexample: on a file with no flush capability (kill-switch
off), `vfs_fsync_range` does not fail with an Unsupported code distinct
from `-EINVAL`: it returns `-EINVAL` itself, the InvalidArgument code. -/
theorem vfs_fsync_nocap_counterexample :
    ¬ UnsupportedCode (vfs_fsync_range cfg0 fileNoCap 0 LLONG_MAX false).1 ∧
    (vfs_fsync_range cfg0 fileNoCap 0 LLONG_MAX false).1 = -EINVAL := by
  unfold UnsupportedCode
  refine ⟨?_, by decide⟩
  intro h
  exact h.2 (by decide)

/-- C7 amended: the single-file sync operation on a file without a flush
capability (kill-switch off) fails with `-EINVAL` — the same numeric code
the validation paths use for InvalidArgument — and performs no flush
work. -/
theorem vfs_fsync_nocap_einval (cfg : Cfg) (f : FsFile)
    (start endbyte : Int) (datasync : Bool)
    (hks : dyn_fsync_bypass cfg = false)
    (hnc : f.hasFOp = false ∨ f.hasFsync = false) :
    vfs_fsync_range cfg f start endbyte datasync = (-EINVAL, []) := by
  simp [vfs_fsync_range, hks, hnc]

/-- C7 amended witness. -/
theorem vfs_fsync_nocap_einval_witness :
    vfs_fsync_range cfg0 fileNoCap 0 LLONG_MAX false = (-EINVAL, []) :=
  vfs_fsync_nocap_einval cfg0 fileNoCap 0 LLONG_MAX false (by decide)
    (Or.inl rfl)

/-- C8 counterexample: with the kill-switch engaged (`dyn_fsync_active`
set, `early_suspend_active` clear), `sync()` is not short-circuited: it
still executes the full flush pass, including the blocking sweep of all
filesystems, and `syncfs` on a plain volume still performs write-back. -/
theorem killswitch_counterexample :
    SyncEv.syncFilesystems true ∈ (sys_sync ⟨true, false, false⟩ 0 0).trace ∧
    VolOp.writebackInodes ∈
      (sys_syncfs ⟨true, false, false⟩ false (some sbPlain)).2 := by
  constructor
  · decide
  · decide

/-- C8 amended: with the kill-switch engaged, `fsync`, `fdatasync` (via the
check inside `vfs_fsync_range`; its own top-level check is compiled out),
`sync_file_range` and `sync_file_range2` return success with no flush work
(`fdatasync` still resolves the descriptor first, so a bad descriptor still
yields `-EBADF`), while `sync()` and `syncfs` ignore the kill-switch
entirely and behave exactly as with it off. -/
theorem killswitch_coverage (cfg : Cfg)
    (hdyn : cfg.dyn_fsync_active = true)
    (hsus : cfg.early_suspend_active = false) :
    (∀ file, sys_fsync cfg file = (0, [])) ∧
    (∀ f : FsFile, sys_fdatasync cfg (some f) = (0, [])) ∧
    sys_fdatasync cfg none = (-EBADF, []) ∧
    (∀ f start endbyte datasync,
      vfs_fsync_range cfg f start endbyte datasync = (0, [])) ∧
    (∀ e offset nbytes flags,
      sys_sync_file_range cfg e offset nbytes flags = (0, [])) ∧
    (∀ e flags offset nbytes,
      sys_sync_file_range2 cfg e flags offset nbytes = (0, [])) ∧
    (∀ snap seq,
      sys_sync cfg snap seq =
        sys_sync ⟨false, false, cfg.laptop_mode⟩ snap seq) ∧
    (∀ em file, sys_syncfs cfg em file = sys_syncfs cfg0 em file) := by
  have hb : dyn_fsync_bypass cfg = true := by
    simp [dyn_fsync_bypass, hdyn, hsus]
  refine ⟨?_, ?_, rfl, ?_, ?_, ?_, ?_, ?_⟩
  · intro file
    simp [sys_fsync, hb]
  · intro f
    simp [sys_fdatasync, do_fsync, vfs_fsync, vfs_fsync_range, hb]
  · intro f start endbyte datasync
    simp [vfs_fsync_range, hb]
  · intro e offset nbytes flags
    simp [sys_sync_file_range, hb]
  · intro e flags offset nbytes
    simp [sys_sync_file_range2, sys_sync_file_range, hb]
  · intro snap seq
    simp [sys_sync, do_sync]
  · intro em file
    rfl

/-- C8 amended witness: with the kill-switch engaged, `fsync` on an
unresolvable descriptor still reports success with no work, while
`fdatasync` on an unresolvable descriptor reports `-EBADF`. -/
theorem killswitch_coverage_witness :
    sys_fsync ⟨true, false, false⟩ none = (0, []) ∧
    sys_fdatasync ⟨true, false, false⟩ none = (-EBADF, []) := by
  have h := killswitch_coverage ⟨true, false, false⟩ rfl rfl
  exact ⟨h.1 none, h.2.2.1⟩
